import Mathlib

/-!
Verification of the `mm-base6` application runtime (`src/mm_base6`).

We give a shallow embedding of the lifecycle orchestrator `Core`
(`src/mm_base6/core/core.py`), the base `Service` class, the relevant parts of
`SystemService` (`src/mm_base6/core/system_service.py`), and — where the
repository's own module is not part of the sources we hold — models written
from the specification (`DConfigStorage`, the `synchronized` mutex, and the
`AsyncScheduler` operations, which live in the external `mm_concurrency` /
`mm_std` packages).

Conventions of the embedding:
* `await`ed Python calls that can raise are embedded as `Except`-returning
  functions; calls that cannot raise are plain functions.
* A method that performs externally visible side effects is embedded as a
  function that returns, besides its result, a `List Action` trace of those
  effects, in program order.
* Python's `dir(obj)` returns the attribute names sorted alphabetically; we
  embed the registry as a list of attributes and `dir` as an insertion sort
  on the attribute name.
-/

namespace MmBase6

/-- An attribute of the user service-registry object, as seen by
`dir(self.services)` in `Core._start_services` / `_stop_services` /
`_configure_services_scheduler` / `_inject_core_into_services`.
`isService` is the `isinstance(service, Service)` test; `onStartOk` says
whether this service's `on_start()` coroutine completes without raising;
`tasks` is the list of task names its `configure_scheduler()` registers. -/
structure Attr where
  name : String
  isService : Bool
  onStartOk : Bool
  tasks : List String
  deriving Repr, DecidableEq

/-- Lexicographic order on char lists by code point, as Python compares
strings. -/
def charListLt : List Char → List Char → Bool
  | [], [] => false
  | [], _ :: _ => true
  | _ :: _, [] => false
  | a :: as, b :: bs =>
    if a.toNat < b.toNat then true
    else if b.toNat < a.toNat then false
    else charListLt as bs

/-- Python `a < b` on strings. -/
def strLt (a b : String) : Bool := charListLt a.data b.data

/-- Python string order on attribute names (`dir` sorts ascending). -/
def strLe (a b : String) : Bool := !(strLt b a)

/-- Python `s.startswith(p)`. -/
def pyStartsWith (s p : String) : Bool := p.data.isPrefixOf s.data

/-- Insert into a name-sorted attribute list. -/
def dirInsert (a : Attr) : List Attr → List Attr
  | [] => [a]
  | b :: l => if strLe a.name b.name then a :: b :: l else b :: dirInsert a l

/-- `dir(self.services)`: the registry's attributes sorted by name.
The registry itself stores them in declaration order. -/
def dirSort : List Attr → List Attr
  | [] => []
  | a :: l => dirInsert a (dirSort l)

/-- The filter applied at every iteration site in `Core`:
`if not attr_name.startswith("_")` and `isinstance(service, Service)`. -/
def isIteratedService (a : Attr) : Bool :=
  !(pyStartsWith a.name "_") && a.isService

/-- The services `Core` actually iterates over, in iteration order:
`dir()` order (sorted by attribute name) restricted to public `Service`
attributes. -/
def iteratedServices (registry : List Attr) : List Attr :=
  (dirSort registry).filter isIteratedService

/-- Externally visible effects of the `Core` lifecycle methods, in
program order. -/
inductive Action where
  | serviceOnStart (name : String)
  | serviceOnStop (name : String)
  | serviceConfigureScheduler (name : String)
  | serviceSetCore (name : String)
  | schedStop
  | schedClearTasks
  | schedStart
  | recordEvent (eventType : String)
  | dlogWrite (category : String)
  | mongoClose
  | processExit
  deriving Repr, DecidableEq

/-- Modelled from the spec: state of the external `AsyncScheduler`
(`mm_concurrency.async_scheduler`), §4.2 of the spec — a mapping from task
name to descriptor plus a single started flag. Only the parts the claims
need: the registered task names and the started flag. -/
structure Sched where
  tasks : List String
  running : Bool
  deriving Repr, DecidableEq

/-- Modelled from the spec: `AsyncScheduler.is_running()` reflects the
start/stop flag. -/
def Sched.is_running (s : Sched) : Bool := s.running

/-- Modelled from the spec: `AsyncScheduler.stop()` signals the loops and
awaits quiescence; afterwards the scheduler is not running. -/
def Sched.stop (s : Sched) : Sched := { s with running := false }

/-- Modelled from the spec: `AsyncScheduler.start()` begins the timer
loops; idempotent if already started. -/
def Sched.start (s : Sched) : Sched := { s with running := true }

/-- Modelled from the spec: `AsyncScheduler.clear_tasks()` removes all
descriptors; fails with `IllegalStateError` if the scheduler is currently
started. -/
def Sched.clear_tasks (s : Sched) : Except String Sched :=
  if s.running then .error "IllegalStateError" else .ok { s with tasks := [] }

/-- Modelled from the spec: `AsyncScheduler.add_task(name, …)` fails with
`DuplicateTaskError` if the name is already registered, otherwise inserts
a descriptor in the not-running state. -/
def Sched.add_task (s : Sched) (name : String) : Except String Sched :=
  if s.tasks.contains name then .error "DuplicateTaskError"
  else .ok { s with tasks := s.tasks ++ [name] }

/-- Register a list of task names in order via `add_task`; the first
`DuplicateTaskError` propagates. -/
def addTasks (s : Sched) : List String → Except String Sched
  | [] => .ok s
  | t :: ts =>
    match s.add_task t with
    | .error e => .error e
    | .ok s1 => addTasks s1 ts

/-- One service's `configure_scheduler()` body: registers each of its task
names via `add_task`. -/
def configureOne (s : Sched) (a : Attr) : Except String Sched :=
  addTasks s a.tasks

/-- Configuration pass over an already-ordered service list: call each
service's `configure_scheduler()` in turn, threading the scheduler state;
the first `DuplicateTaskError` aborts the pass. -/
def configureServicesFrom (s : Sched) : List Attr → Except String (List Action × Sched)
  | [] => .ok ([], s)
  | a :: rest =>
    match configureOne s a with
    | .error e => .error e
    | .ok s1 =>
      match configureServicesFrom s1 rest with
      | .error e => .error e
      | .ok (tr, s2) => .ok (Action.serviceConfigureScheduler a.name :: tr, s2)

/-- `Core._configure_services_scheduler`: call `configure_scheduler()` for
every public `Service` attribute of the registry, in `dir()` order,
returning the effect trace and the scheduler state. -/
def configureServicesScheduler (registry : List Attr) (s : Sched) :
    Except String (List Action × Sched) :=
  configureServicesFrom s (iteratedServices registry)

/-- The all-tasks list a successful configuration pass produces. -/
def allTasks (registry : List Attr) : List String :=
  (iteratedServices registry).flatMap Attr.tasks

/-- `Core` state relevant to the lifecycle claims: the debug flag of
`CoreConfig` and the scheduler. -/
structure CoreSt where
  debug : Bool
  sched : Sched
  deriving Repr, DecidableEq

/-- `Core.reinit_scheduler` (the body inside the `synchronized` lock):
if the scheduler is running, `await` its stop; `clear_tasks()`;
`_configure_services_scheduler()`; `start()`. Returns the trace of
effects and the new state; a `DuplicateTaskError` raised by a service's
`configure_scheduler` propagates. -/
def reinit_scheduler (registry : List Attr) (st : CoreSt) :
    Except String (List Action × CoreSt) :=
  let p := if st.sched.is_running then ([Action.schedStop], st.sched.stop) else ([], st.sched)
  match p.2.clear_tasks with
  | .error e => .error e
  | .ok sched1 =>
    match configureServicesScheduler registry sched1 with
    | .error e => .error e
    | .ok (trace1, sched2) =>
      .ok (p.1 ++ [Action.schedClearTasks] ++ trace1 ++ [Action.schedStart],
        { st with sched := sched2.start })

/-- `Core._start_services` on an already-`dir`-sorted, filtered list:
`await service.on_start()` for each service in order; the first failure
propagates (the returned Bool is `false`), leaving the trace of the calls
made so far, the failing call included. -/
def startServicesFrom : List Attr → List Action × Bool
  | [] => ([], true)
  | a :: rest =>
    if a.onStartOk then
      let (tr, ok) := startServicesFrom rest
      (Action.serviceOnStart a.name :: tr, ok)
    else ([Action.serviceOnStart a.name], false)

/-- `Core._start_services`: iterate `dir(self.services)`, calling
`on_start()` on every public `Service` attribute. -/
def startServices (registry : List Attr) : List Action × Bool :=
  startServicesFrom (iteratedServices registry)

/-- `Core._stop_services`: collect the public `Service` attributes in
`dir()` order, then call `on_stop()` on each in reversed order. -/
def stopServices (registry : List Attr) : List Action :=
  (iteratedServices registry).reverse.map (fun a => Action.serviceOnStop a.name)

/-- `Core.startup`: `await self._start_services()`;
`await self.reinit_scheduler()`; then `await self.event("app_start")`
unless `core_config.debug`. A failing `on_start` (or a
`DuplicateTaskError` from reinit) propagates; the `Except` carries the
trace of effects performed before the exception escaped. -/
def startup (registry : List Attr) (st : CoreSt) :
    Except (List Action) (List Action × CoreSt) :=
  let (tr0, ok) := startServices registry
  if ok then
    match reinit_scheduler registry st with
    | .error _ => .error tr0
    | .ok (tr1, st1) =>
      let tr2 := if st.debug then [] else [Action.recordEvent "app_start"]
      .ok (tr0 ++ tr1 ++ tr2, st1)
  else .error tr0

/-- `Core.shutdown`: `await self._stop_services()`;
`await self.scheduler.stop()`; `await self.event("app_stop")` unless
`core_config.debug`; `await self.mongo_client.close()`; `os._exit(0)`.
Returns the full effect trace. -/
def shutdown (registry : List Attr) (st : CoreSt) : List Action :=
  stopServices registry ++ [Action.schedStop]
    ++ (if st.debug then [] else [Action.recordEvent "app_stop"])
    ++ [Action.mongoClose, Action.processExit]

/-- The claim-side (spec-worded) shutdown order, for comparison against the
source-derived `shutdown`: first stop the scheduler, then `on_stop` every
service in reverse order, then record the stopped event, then release the
store connection, then terminate. -/
def shutdownSpecOrder (registry : List Attr) : List Action :=
  [Action.schedStop] ++ stopServices registry ++ [Action.recordEvent "app_stop"]
    ++ [Action.mongoClose, Action.processExit]

/-- The claim-side (spec-worded) `on_start` call order, for comparison
against the source-derived iteration: the services in *declared* order,
i.e. the order of the registry's annotations, which is also the order in
which `_create_services_from_registry_class` instantiates them. -/
def declaredOrderStartTrace (registry : List Attr) : List Action :=
  (registry.filter isIteratedService).map (fun a => Action.serviceOnStart a.name)

/-! ## The base `Service` class and context injection (`core.py` lines 288-337) -/

/-- The base `Service[T]` object state: the `_core` class attribute, `None`
until `set_core` is called. -/
structure ServiceObj (T : Type) where
  _core : Option T
  deriving Repr, DecidableEq

/-- A freshly constructed service: `_core: T | None = None`. Construction
does not require the runtime context. -/
def newService (T : Type) : ServiceObj T := ⟨none⟩

/-- Python exception classes the embedded methods can raise. -/
inductive PyErr where
  | typeError (msg : String)
  | runtimeError (msg : String)
  deriving Repr, DecidableEq

/-- `Service.set_core`: inject the core reference. -/
def ServiceObj.set_core (s : ServiceObj T) (core : T) : ServiceObj T :=
  { s with _core := some core }

/-- The `Service.core` property: raises `RuntimeError("Core not set for
service")` if `_core is None`, else returns the injected core. -/
def ServiceObj.core (s : ServiceObj T) : Except PyErr T :=
  match s._core with
  | none => .error (.runtimeError "Core not set for service")
  | some c => .ok c

/-- `Core._inject_core_into_services`: for each public `Service` attribute
of the registry, in `dir()` order, call `service.set_core(self)`; the trace
records one `serviceSetCore` per call. -/
def injectCoreIntoServices (registry : List Attr) : List Action :=
  (iteratedServices registry).map (fun a => Action.serviceSetCore a.name)

/-! ## `Core.__new__` and `Core.init` (`core.py` lines 101-165) -/

/-- `Core.__new__(cls, *args, **kwargs)`: unconditionally raises
`TypeError`, whatever the positional and keyword arguments are. -/
def coreNew (_args : List String) (_kwargs : List (String × String)) :
    Except PyErr CoreSt :=
  .error (.typeError "Use `Core.init()` instead of direct instantiation.")

/-- `Core.init` restricted to the state the claims track: builds the
instance via `super().__new__(cls)` (bypassing `Core.__new__`), creates a
fresh `AsyncScheduler()` (no tasks, not running), creates the services
from the registry class and injects the core into each. Returns the
instance and the injection trace. -/
def coreInit (debug : Bool) (registry : List Attr) : CoreSt × List Action :=
  ({ debug := debug, sched := { tasks := [], running := false } },
   injectCoreIntoServices registry)

/-! ## `SystemService` telegram sending (`system_service.py` lines 150-168) -/

/-- The `Result` type of `mm_std`: `Ok` value or `Err` message. -/
inductive MmResult (α : Type) where
  | Ok (value : α)
  | Err (error : String)
  deriving Repr, DecidableEq

/-- The telegram-relevant slice of `DConfigStorage.storage`:
`storage.get("telegram_token")` and `storage.get("telegram_chat_id")`,
each `none` when the key is absent from the storage dict. -/
structure TgStorage where
  telegram_token : Option String
  telegram_chat_id : Option Int
  deriving Repr, DecidableEq

/-- `SystemService.has_telegram_settings`:
`return ":" in token and chat_id != 0` inside `try/except` returning
`False` on any exception. A `None` token makes `":" in token` raise
`TypeError` (caught → `False`); a `None` chat id compares `None != 0`,
which is `True` in Python. -/
def has_telegram_settings (st : TgStorage) : Bool :=
  match st.telegram_token with
  | none => false
  | some token =>
    if token.data.contains ':' then
      match st.telegram_chat_id with
      | none => true
      | some cid => decide (cid ≠ 0)
    else false

/-- `SystemService.send_telegram_message`: early `Err` if
`has_telegram_settings` fails; otherwise performs the external
`mm_telegram.async_send_message` call (its outcome is the `sendResult`
parameter, the external collaborator's response); on an `Err` outcome
writes a `send_telegram_message` record to the event log (`self.dlog`);
returns the outcome. -/
def send_telegram_message (st : TgStorage) (_message : String)
    (sendResult : MmResult (List Int)) : MmResult (List Int) × List Action :=
  if !(has_telegram_settings st) then
    (MmResult.Err "telegram token or chat_id is not set", [])
  else
    match sendResult with
    | MmResult.Err e => (MmResult.Err e, [Action.dlogWrite "send_telegram_message"])
    | MmResult.Ok v => (MmResult.Ok v, [])

/-! ## The typed store (`DConfigStorage`) and its TOML export -/

/-- Semantic field types of the typed store, per spec §4.1: numeric,
boolean, string, structured. -/
inductive SemType where
  | numeric
  | boolean
  | string
  | structured
  deriving Repr, DecidableEq

/-- A stored field value. -/
inductive DVal where
  | num (n : Int)
  | flag (b : Bool)
  | str (s : String)
  | structured (payload : String)
  deriving Repr, DecidableEq

/-- Decimal digit value of a char, `none` if not a digit. -/
def digitVal (c : Char) : Option Nat :=
  if 48 ≤ c.toNat ∧ c.toNat ≤ 57 then some (c.toNat - 48) else none

/-- Parse an unsigned decimal numeral. -/
def parseNatAux (acc : Nat) : List Char → Option Nat
  | [] => some acc
  | c :: cs =>
    match digitVal c with
    | none => none
    | some d => parseNatAux (acc * 10 + d) cs

/-- Parse a (possibly negative) decimal integer from a raw string. -/
def parseInt (raw : String) : Option Int :=
  match raw.data with
  | [] => none
  | '-' :: cs => if cs = [] then none else (parseNatAux 0 cs).map (fun n => -(n : Int))
  | cs => (parseNatAux 0 cs).map (fun n => (n : Int))

/-- Modelled from the spec: conversion of a raw string value to a field's
declared semantic type (`mm_base6.core.dconfig` is not among the sources
we hold). Numeric parses a decimal integer, boolean accepts the usual
true/false spellings, string always succeeds, structured carries its raw
payload. -/
def convertRaw : SemType → String → Option DVal
  | .numeric, raw => (parseInt raw).map DVal.num
  | .boolean, raw =>
    if raw = "True" ∨ raw = "true" then some (DVal.flag true)
    else if raw = "False" ∨ raw = "false" then some (DVal.flag false)
    else none
  | .string, raw => some (DVal.str raw)
  | .structured, raw => some (DVal.structured raw)

/-- Association-list read, Python `dict` lookup. -/
def getKey (l : List (String × α)) (k : String) : Option α :=
  match l with
  | [] => none
  | (k0, v) :: rest => if k0 = k then some v else getKey rest k

/-- Association-list write, Python `dict` assignment: replace the value
at an existing key, append the pair when the key is new. -/
def setKey (l : List (String × α)) (k : String) (v : α) : List (String × α) :=
  match l with
  | [] => [(k, v)]
  | (k0, v0) :: rest => if k0 = k then (k, v) :: rest else (k0, v0) :: setKey rest k v

/-- Modelled from the spec: the `DConfigStorage` class state —
the in-memory cache (`storage`), the backing documents (`persisted`),
the declared semantic type of each field, and the hidden-field set. -/
structure DConfigSt where
  storage : List (String × DVal)
  persisted : List (String × DVal)
  types : List (String × SemType)
  hidden : List String
  deriving Repr, DecidableEq

/-- Errors of the typed-store update path. -/
inductive UpdateErr where
  | validationError (field : String)
  | persistenceError (field : String)
  deriving Repr, DecidableEq

/-- Modelled from the spec: `DConfigStorage.update` for a single field
(`mm_base6.core.dconfig` is not among the sources we hold; spec §4.1):
validate the raw value against the field's declared semantic type, fail
with `ValidationError` on conversion failure; else persist the converted
value (the store write's success is the `persistOk` parameter) and only
then update the in-memory cache (fail-closed); return whether the cached
value changed. The class mutates in place, so the embedding returns the
resulting storage state alongside the outcome: on any failure the
returned state is the input state, untouched. -/
def DConfigStorage.update (persistOk : Bool) (st : DConfigSt) (field raw : String) :
    DConfigSt × Except UpdateErr Bool :=
  match getKey st.types field with
  | none => (st, .error (.validationError field))
  | some ty =>
    match convertRaw ty raw with
    | none => (st, .error (.validationError field))
    | some v =>
      if persistOk then
        ({ st with
            storage := setKey st.storage field v,
            persisted := setKey st.persisted field v },
         .ok (decide (getKey st.storage field ≠ some v)))
      else (st, .error (.persistenceError field))

/-- Render one stored value for the TOML export. -/
def renderDVal : DVal → String
  | .num n => toString n
  | .flag b => if b then "true" else "false"
  | .str s => "\"" ++ s ++ "\""
  | .structured payload => payload

/-- `toml_dumps` (from `mm_std`) on a flat document: one `key = value`
line per field, in document order. -/
def toml_dumps (kvs : List (String × DVal)) : String :=
  String.join (kvs.map (fun kv => kv.fst ++ " = " ++ renderDVal kv.snd ++ "\n"))

/-- `pydash.omit(storage, *hidden)`: a copy of the document without the
listed keys. -/
def pydashOmit (storage : List (String × DVal)) (hidden : List String) :
    List (String × DVal) :=
  storage.filter (fun kv => !(hidden.contains kv.fst))

/-- The keys a flat document serializes. -/
def docKeys (kvs : List (String × DVal)) : List String := kvs.map Prod.fst

/-- `SystemService.export_dconfig_as_toml`:
`toml_dumps(pydash.omit(DConfigStorage.storage, *DConfigStorage.hidden))`. -/
def export_dconfig_as_toml (st : DConfigSt) : String :=
  toml_dumps (pydashOmit st.storage st.hidden)

/-! ## Mutual exclusion of `reinit_scheduler` (claim C1)

`reinit_scheduler` is decorated with `@synchronized` from the external
`mm_concurrency` package. Modelled from the spec: a process-wide mutex —
concurrent callers block until the in-flight call completes. We model two
concurrent callers of `reinit_scheduler` as an interleaving state machine:
each caller is at a phase; the phases `stopSched`, `clearTasks`,
`configure`, `startSched` are the four statements of the method body (the
critical section); `entry` is before the mutex is acquired and `done`
after it is released. -/

/-- Phase of one `reinit_scheduler` caller. -/
inductive RPhase where
  | entry
  | stopSched
  | clearTasks
  | configure
  | startSched
  | done
  deriving Repr, DecidableEq

/-- Interleaving state of two concurrent `reinit_scheduler` callers
(caller `false` and caller `true`): who holds the `synchronized` mutex,
and each caller's phase. -/
structure LockSt where
  lock : Option Bool
  pcA : RPhase
  pcB : RPhase
  deriving Repr, DecidableEq

/-- Phase of caller `t`. -/
def pcOf (s : LockSt) (t : Bool) : RPhase :=
  if t then s.pcB else s.pcA

/-- Set the phase of caller `t`. -/
def setPc (s : LockSt) (t : Bool) (p : RPhase) : LockSt :=
  if t then { s with pcB := p } else { s with pcA := p }

/-- Caller `t` is inside the stop/clear/configure/start critical
section. -/
def inCritical (s : LockSt) (t : Bool) : Prop :=
  pcOf s t = .stopSched ∨ pcOf s t = .clearTasks
    ∨ pcOf s t = .configure ∨ pcOf s t = .startSched

instance (s : LockSt) (t : Bool) : Decidable (inCritical s t) := by
  unfold inCritical
  infer_instance

/-- One interleaving step: a caller acquires the free mutex and enters the
critical section, advances one statement, or finishes the last statement
and releases the mutex. Modelled from the spec: `synchronized` blocks a
caller at `entry` while the mutex is held. -/
inductive ReinitStep : LockSt → LockSt → Prop where
  | acquire (s : LockSt) (t : Bool) :
      s.lock = none → pcOf s t = .entry →
      ReinitStep s (setPc { s with lock := some t } t .stopSched)
  | stepStop (s : LockSt) (t : Bool) :
      pcOf s t = .stopSched → ReinitStep s (setPc s t .clearTasks)
  | stepClear (s : LockSt) (t : Bool) :
      pcOf s t = .clearTasks → ReinitStep s (setPc s t .configure)
  | stepConfigure (s : LockSt) (t : Bool) :
      pcOf s t = .configure → ReinitStep s (setPc s t .startSched)
  | stepStartRelease (s : LockSt) (t : Bool) :
      pcOf s t = .startSched →
      ReinitStep s (setPc { s with lock := none } t .done)

/-- Both callers have just called `reinit_scheduler`; the mutex is free. -/
def initLockSt : LockSt := ⟨none, .entry, .entry⟩

/-- States reachable by interleaving the two callers. -/
inductive ReachableReinit : LockSt → Prop where
  | init : ReachableReinit initLockSt
  | step (s s' : LockSt) : ReachableReinit s → ReinitStep s s' → ReachableReinit s'

/-- The inductive invariant: a caller inside the critical section holds
the mutex. -/
def LockInv (s : LockSt) : Prop :=
  (inCritical s false → s.lock = some false) ∧ (inCritical s true → s.lock = some true)

/-- Rename an `on_start` call to the corresponding `on_stop` call, to
relate the startup and shutdown iteration orders. -/
def Action.toStop : Action → Action
  | .serviceOnStart n => .serviceOnStop n
  | a => a

/-- The effect trace of a successful `reinit_scheduler` call, in closed
form. -/
def reinitTraceClosed (registry : List Attr) (st : CoreSt) : List Action :=
  (if st.sched.is_running then [Action.schedStop] else [])
    ++ [Action.schedClearTasks]
    ++ (iteratedServices registry).map (fun a => Action.serviceConfigureScheduler a.name)
    ++ [Action.schedStart]

/-! ## Helper lemmas -/

theorem startServicesFrom_all_ok (l : List Attr) (h : ∀ a ∈ l, a.onStartOk = true) :
    startServicesFrom l = (l.map (fun a => Action.serviceOnStart a.name), true) := by
  induction l with
  | nil => rfl
  | cons a rest ih =>
    have ha := h a (by simp)
    simp [startServicesFrom, ha, ih (fun x hx => h x (by simp [hx]))]

theorem startServicesFrom_fail (pre : List Attr) (f : Attr) (post : List Attr)
    (hpre : ∀ a ∈ pre, a.onStartOk = true) (hf : f.onStartOk = false) :
    startServicesFrom (pre ++ f :: post)
      = (pre.map (fun a => Action.serviceOnStart a.name)
          ++ [Action.serviceOnStart f.name], false) := by
  induction pre with
  | nil => simp [startServicesFrom, hf]
  | cons a rest ih =>
    have ha := hpre a (by simp)
    simp [startServicesFrom, ha, ih (fun x hx => hpre x (by simp [hx]))]

theorem addTasks_ok (ts : List String) (s : Sched) (h : (s.tasks ++ ts).Nodup) :
    addTasks s ts = .ok ⟨s.tasks ++ ts, s.running⟩ := by
  induction ts generalizing s with
  | nil => simp [addTasks]
  | cons t ts ih =>
    rw [List.nodup_append] at h
    have hnotmem : t ∉ s.tasks := fun hmem => h.2.2 hmem (by simp)
    have hcontains : s.tasks.contains t = false := by
      rw [Bool.eq_false_iff]
      intro hc
      exact hnotmem (List.elem_iff.mp hc)
    have hrest : ((⟨s.tasks ++ [t], s.running⟩ : Sched).tasks ++ ts).Nodup := by
      have : (s.tasks ++ t :: ts).Nodup := by
        rw [List.nodup_append]; exact h
      simpa [List.append_assoc] using this
    simp only [addTasks, Sched.add_task, hcontains, Bool.false_eq_true, if_false,
      ih _ hrest]
    simp [List.append_assoc]

theorem configureServicesFrom_ok (attrs : List Attr) (s : Sched)
    (h : (s.tasks ++ attrs.flatMap Attr.tasks).Nodup) :
    configureServicesFrom s attrs
      = .ok (attrs.map (fun a => Action.serviceConfigureScheduler a.name),
             ⟨s.tasks ++ attrs.flatMap Attr.tasks, s.running⟩) := by
  induction attrs generalizing s with
  | nil => simp [configureServicesFrom]
  | cons a rest ih =>
    have hflat : s.tasks ++ (a :: rest).flatMap Attr.tasks
        = (s.tasks ++ a.tasks) ++ rest.flatMap Attr.tasks := by
      simp [List.append_assoc]
    have h1 : (s.tasks ++ a.tasks).Nodup := by
      refine List.Nodup.sublist ?_ (hflat ▸ h)
      exact List.sublist_append_left _ _
    have h2 : ((⟨s.tasks ++ a.tasks, s.running⟩ : Sched).tasks
        ++ rest.flatMap Attr.tasks).Nodup := by
      simpa using (hflat ▸ h)
    simp only [configureServicesFrom, configureOne, addTasks_ok _ _ h1, ih _ h2]
    simp [List.append_assoc]

theorem reinit_scheduler_closed_form (registry : List Attr) (st : CoreSt)
    (h : (allTasks registry).Nodup) :
    reinit_scheduler registry st
      = .ok (reinitTraceClosed registry st,
             { debug := st.debug, sched := ⟨allTasks registry, true⟩ }) := by
  have hc := configureServicesFrom_ok (iteratedServices registry) ⟨[], false⟩
    (by simpa [allTasks] using h)
  obtain ⟨d, tasks, running⟩ := st
  cases running <;>
    simp [reinit_scheduler, Sched.is_running, Sched.stop, Sched.clear_tasks,
      configureServicesScheduler, hc, Sched.start, reinitTraceClosed, allTasks]

theorem getKey_setKey_self (l : List (String × α)) (k : String) (v : α) :
    getKey (setKey l k v) k = some v := by
  induction l with
  | nil => simp [setKey, getKey]
  | cons kv rest ih =>
    obtain ⟨k0, v0⟩ := kv
    by_cases h : k0 = k
    · simp [setKey, getKey, h]
    · simp [setKey, getKey, h, ih]

theorem getKey_setKey_other (l : List (String × α)) (k k' : String) (v : α)
    (h : k' ≠ k) :
    getKey (setKey l k v) k' = getKey l k' := by
  induction l with
  | nil => simp [setKey, getKey, Ne.symm h]
  | cons kv rest ih =>
    obtain ⟨k0, v0⟩ := kv
    by_cases h0 : k0 = k
    · subst h0
      simp [setKey, getKey, Ne.symm h]
    · simp [setKey, getKey, h0, ih]

theorem setPc_lock (s : LockSt) (t : Bool) (p : RPhase) : (setPc s t p).lock = s.lock := by
  cases t <;> simp [setPc]

theorem lockInv_step (s s' : LockSt) (hinv : LockInv s) (hstep : ReinitStep s s') :
    LockInv s' := by
  obtain ⟨lk, pA, pB⟩ := s
  cases hstep with
  | acquire t hlock hpc =>
    cases t <;> simp_all [LockInv, inCritical, pcOf, setPc]
  | stepStop t hpc =>
    cases t <;> simp_all [LockInv, inCritical, pcOf, setPc]
  | stepClear t hpc =>
    cases t <;> simp_all [LockInv, inCritical, pcOf, setPc]
  | stepConfigure t hpc =>
    cases t <;> simp_all [LockInv, inCritical, pcOf, setPc]
  | stepStartRelease t hpc =>
    cases t with
    | false =>
      simp [pcOf] at hpc
      have h1 : lk = some false := hinv.1 (Or.inr (Or.inr (Or.inr hpc)))
      constructor
      · intro hc
        simp [inCritical, pcOf, setPc] at hc
      · intro hc
        have hcB : inCritical ⟨lk, pA, pB⟩ true := by
          simpa [inCritical, pcOf, setPc] using hc
        have h2 := hinv.2 hcB
        rw [h1] at h2
        simp at h2
    | true =>
      simp [pcOf] at hpc
      have h1 : lk = some true := hinv.2 (Or.inr (Or.inr (Or.inr hpc)))
      constructor
      · intro hc
        have hcA : inCritical ⟨lk, pA, pB⟩ false := by
          simpa [inCritical, pcOf, setPc] using hc
        have h2 := hinv.1 hcA
        rw [h1] at h2
        simp at h2
      · intro hc
        simp [inCritical, pcOf, setPc] at hc

theorem reachable_lockInv (s : LockSt) (h : ReachableReinit s) : LockInv s := by
  induction h with
  | init => exact ⟨by intro hc; simp [inCritical, pcOf, initLockSt] at hc,
      by intro hc; simp [inCritical, pcOf, initLockSt] at hc⟩
  | step s s' hr hstep ih => exact lockInv_step s s' ih hstep

/-! ## Claim theorems -/

/-- Claim C1: in every interleaved execution of two concurrent
`reinit_scheduler` calls, at most one is inside the stop/clear/reconfigure/
start critical section at a time — the `synchronized` mutex (modelled from
the spec) makes the later caller block, so the phases of the two
reinitializations never interleave. -/
theorem reinit_scheduler_mutual_exclusion (s : LockSt) (h : ReachableReinit s) :
    ¬(inCritical s false ∧ inCritical s true) := by
  rintro ⟨h1, h2⟩
  have hinv := reachable_lockInv s h
  have e1 := hinv.1 h1
  have e2 := hinv.2 h2
  rw [e1] at e2
  simp at e2

/-- Witness for claim C1: the state where caller `false` has acquired the
mutex and stands at the stop phase is reachable, and there the two
callers are not both in the critical section. -/
theorem reinit_scheduler_mutual_exclusion_witness :
    ReachableReinit ⟨some false, RPhase.stopSched, RPhase.entry⟩
    ∧ ¬(inCritical ⟨some false, RPhase.stopSched, RPhase.entry⟩ false
        ∧ inCritical ⟨some false, RPhase.stopSched, RPhase.entry⟩ true) :=
  have hreach : ReachableReinit ⟨some false, RPhase.stopSched, RPhase.entry⟩ :=
    ReachableReinit.step _ _ ReachableReinit.init
      (ReinitStep.acquire initLockSt false rfl rfl)
  ⟨hreach, reinit_scheduler_mutual_exclusion _ hreach⟩

/-- Counterexample for claim C2: `Core.shutdown` does not stop the
scheduler first — with one service, the trace differs from the claimed
scheduler-first order; and in debug mode no stopped event is recorded at
all. -/
theorem shutdown_counterexample :
    shutdown [⟨"data", true, true, []⟩] ⟨false, ⟨[], true⟩⟩
      ≠ shutdownSpecOrder [⟨"data", true, true, []⟩]
    ∧ Action.recordEvent "app_stop" ∉ shutdown [⟨"data", true, true, []⟩] ⟨true, ⟨[], true⟩⟩ := by
  decide

/-- Claim C2 (amended): `Core.shutdown` first calls `on_stop` on every
service in reverse order, then stops the scheduler, then records an
`app_stop` event unless running in debug mode, then closes the mongo
client, and finally exits the process — the process exit is the last
action of the trace. -/
theorem shutdown_source_order (registry : List Attr) (st : CoreSt) :
    shutdown registry st
      = stopServices registry ++ [Action.schedStop]
        ++ (if st.debug then [] else [Action.recordEvent "app_stop"])
        ++ [Action.mongoClose, Action.processExit]
    ∧ (shutdown registry st).getLast? = some Action.processExit := by
  refine ⟨rfl, ?_⟩
  obtain ⟨d, sch⟩ := st
  cases d <;> simp [shutdown, List.getLast?_append_of_ne_nil]

/-- Counterexample for claim C3: the registry declares `b_svc` before
`a_svc`, but `startup` calls `on_start` in ascending attribute-name
(`dir()`) order, `a_svc` first — not in declared order. -/
theorem startup_declared_order_counterexample :
    (startup [⟨"b_svc", true, true, []⟩, ⟨"a_svc", true, true, []⟩]
        ⟨true, ⟨[], false⟩⟩).toOption.map (fun p => p.fst.take 2)
      = some [Action.serviceOnStart "a_svc", Action.serviceOnStart "b_svc"]
    ∧ declaredOrderStartTrace [⟨"b_svc", true, true, []⟩, ⟨"a_svc", true, true, []⟩]
      = [Action.serviceOnStart "b_svc", Action.serviceOnStart "a_svc"]
    ∧ [Action.serviceOnStart "a_svc", Action.serviceOnStart "b_svc"]
      ≠ [Action.serviceOnStart "b_svc", Action.serviceOnStart "a_svc"] := by
  decide

/-- Claim C3 (amended): `Core.startup` calls `on_start` on every
registered service in ascending attribute-name order (the order of
Python's `dir()`), then calls `reinit_scheduler()`, then records an
`app_start` event unless running in debug mode; a failing `on_start`
aborts startup and propagates — the error trace holds exactly the
`on_start` calls made so far, so services already started are not rolled
back and no scheduler action happens. -/
theorem startup_order (registry : List Attr) (st : CoreSt) :
    ((∀ a ∈ iteratedServices registry, a.onStartOk = true) →
      (allTasks registry).Nodup →
      startup registry st
        = .ok ((iteratedServices registry).map (fun a => Action.serviceOnStart a.name)
            ++ reinitTraceClosed registry st
            ++ (if st.debug then [] else [Action.recordEvent "app_start"]),
            { debug := st.debug, sched := ⟨allTasks registry, true⟩ }))
    ∧ (∀ pre f post, iteratedServices registry = pre ++ f :: post →
        (∀ a ∈ pre, a.onStartOk = true) → f.onStartOk = false →
        startup registry st
          = .error (pre.map (fun a => Action.serviceOnStart a.name)
              ++ [Action.serviceOnStart f.name])) := by
  constructor
  · intro hok hnodup
    have h1 := startServicesFrom_all_ok (iteratedServices registry) hok
    have h2 := reinit_scheduler_closed_form registry st hnodup
    simp [startup, startServices, h1, h2]
  · intro pre f post hsplit hpre hf
    have h1 := startServicesFrom_fail pre f post hpre hf
    simp [startup, startServices, hsplit, h1]

/-- Witness for claim C3: a two-service registry declared `b_svc` before
`a_svc`, debug mode on, started from a fresh scheduler. -/
theorem startup_order_witness :
    ((∀ a ∈ iteratedServices [⟨"b_svc", true, true, ["t1"]⟩, ⟨"a_svc", true, true, ["t2"]⟩],
        a.onStartOk = true)
      ∧ (allTasks [⟨"b_svc", true, true, ["t1"]⟩, ⟨"a_svc", true, true, ["t2"]⟩]).Nodup)
    ∧ startup [⟨"b_svc", true, true, ["t1"]⟩, ⟨"a_svc", true, true, ["t2"]⟩]
        ⟨true, ⟨[], false⟩⟩
      = .ok ([Action.serviceOnStart "a_svc", Action.serviceOnStart "b_svc",
          Action.schedClearTasks,
          Action.serviceConfigureScheduler "a_svc",
          Action.serviceConfigureScheduler "b_svc", Action.schedStart],
          ⟨true, ⟨["t2", "t1"], true⟩⟩) :=
  ⟨⟨by decide, by decide⟩,
   ((startup_order [⟨"b_svc", true, true, ["t1"]⟩, ⟨"a_svc", true, true, ["t2"]⟩]
      ⟨true, ⟨[], false⟩⟩).1 (by decide) (by decide)).trans (by rfl)⟩

/-- Claim C4: every `reinit_scheduler` call, from any scheduler state,
performs exactly: stop the scheduler if it is running, clear all tasks,
call `configure_scheduler` on every service, start the scheduler — and
ends with the scheduler running on exactly the services' registered
tasks. (Requires the services to register distinct task names, else
`add_task` raises `DuplicateTaskError`.) -/
theorem reinit_scheduler_sequence (registry : List Attr) (st : CoreSt)
    (h : (allTasks registry).Nodup) :
    reinit_scheduler registry st
      = .ok ((if st.sched.is_running then [Action.schedStop] else [])
          ++ [Action.schedClearTasks]
          ++ (iteratedServices registry).map
              (fun a => Action.serviceConfigureScheduler a.name)
          ++ [Action.schedStart],
          { debug := st.debug, sched := ⟨allTasks registry, true⟩ }) :=
  reinit_scheduler_closed_form registry st h

/-- Witness for claim C4: a running scheduler with a stale task is
stopped, cleared, reconfigured from both services and restarted. -/
theorem reinit_scheduler_sequence_witness :
    (allTasks [⟨"b_svc", true, true, ["t1"]⟩, ⟨"a_svc", true, true, ["t2"]⟩]).Nodup
    ∧ reinit_scheduler [⟨"b_svc", true, true, ["t1"]⟩, ⟨"a_svc", true, true, ["t2"]⟩]
        ⟨false, ⟨["old"], true⟩⟩
      = .ok ([Action.schedStop, Action.schedClearTasks,
          Action.serviceConfigureScheduler "a_svc",
          Action.serviceConfigureScheduler "b_svc", Action.schedStart],
          ⟨false, ⟨["t2", "t1"], true⟩⟩) :=
  ⟨by decide,
   (reinit_scheduler_sequence [⟨"b_svc", true, true, ["t1"]⟩, ⟨"a_svc", true, true, ["t2"]⟩]
      ⟨false, ⟨["old"], true⟩⟩ (by decide)).trans (by rfl)⟩

/-- Claim C5: a raw value that fails validation makes `update` fail with
`ValidationError` and leaves the state (cache included) untouched; a
failing persistence write leaves the cache untouched (fail-closed); a
successful `update` writes the converted value to both the cache and the
store (so they never diverge, and stay pointwise equal if they were),
leaves other fields unchanged, and returns whether the cached value
changed. -/
theorem dconfig_update_fail_closed (persistOk : Bool) (st : DConfigSt)
    (field raw : String) (ty : SemType) :
    (getKey st.types field = some ty → convertRaw ty raw = none →
      DConfigStorage.update persistOk st field raw
        = (st, .error (.validationError field)))
    ∧ (∀ v, getKey st.types field = some ty → convertRaw ty raw = some v →
        persistOk = false →
        DConfigStorage.update persistOk st field raw
          = (st, .error (.persistenceError field)))
    ∧ (∀ v, getKey st.types field = some ty → convertRaw ty raw = some v →
        persistOk = true →
        DConfigStorage.update persistOk st field raw
          = ({ st with
                storage := setKey st.storage field v,
                persisted := setKey st.persisted field v },
             .ok (decide (getKey st.storage field ≠ some v)))
        ∧ getKey (setKey st.storage field v) field = some v
        ∧ getKey (setKey st.persisted field v) field = some v
        ∧ (∀ k, k ≠ field → getKey (setKey st.storage field v) k = getKey st.storage k)
        ∧ ((∀ k, getKey st.storage k = getKey st.persisted k) →
            ∀ k, getKey (setKey st.storage field v) k
              = getKey (setKey st.persisted field v) k)) := by
  refine ⟨?_, ?_, ?_⟩
  · intro hty hconv
    simp [DConfigStorage.update, hty, hconv]
  · intro v hty hconv hp
    subst hp
    simp [DConfigStorage.update, hty, hconv]
  · intro v hty hconv hp
    subst hp
    refine ⟨by simp [DConfigStorage.update, hty, hconv], getKey_setKey_self _ _ _,
      getKey_setKey_self _ _ _, fun k hk => getKey_setKey_other _ _ _ _ hk, ?_⟩
    intro hagree k
    by_cases hk : k = field
    · subst hk
      rw [getKey_setKey_self, getKey_setKey_self]
    · rw [getKey_setKey_other _ _ _ _ hk, getKey_setKey_other _ _ _ _ hk]
      exact hagree k

/-- Witness for claim C5: updating a numeric field with the unparsable
raw value `abc` fails with `ValidationError` and the state is returned
untouched. -/
theorem dconfig_update_witness :
    (getKey [("port", SemType.numeric)] "port" = some SemType.numeric
      ∧ convertRaw SemType.numeric "abc" = none)
    ∧ DConfigStorage.update true
        ⟨[("port", DVal.num 80)], [("port", DVal.num 80)],
          [("port", SemType.numeric)], []⟩ "port" "abc"
      = (⟨[("port", DVal.num 80)], [("port", DVal.num 80)],
          [("port", SemType.numeric)], []⟩,
         .error (.validationError "port")) :=
  ⟨⟨by decide, by decide⟩,
   (dconfig_update_fail_closed true
      ⟨[("port", DVal.num 80)], [("port", DVal.num 80)],
        [("port", SemType.numeric)], []⟩ "port" "abc" SemType.numeric).1
      (by decide) (by decide)⟩

/-- Claim C6: when all services start successfully, the `on_start` calls
follow the iteration order, and the `on_stop` calls of shutdown are
exactly the reverse of the `on_start` calls of startup. -/
theorem stop_reverses_start (registry : List Attr)
    (h : ∀ a ∈ iteratedServices registry, a.onStartOk = true) :
    (startServices registry).fst
        = (iteratedServices registry).map (fun a => Action.serviceOnStart a.name)
    ∧ stopServices registry
        = (((startServices registry).fst).map Action.toStop).reverse := by
  have h1 := startServicesFrom_all_ok (iteratedServices registry) h
  constructor
  · simp [startServices, h1]
  · simp [stopServices, startServices, h1, List.map_map, Function.comp, Action.toStop]

/-- Witness for claim C6: a registry of three services `a_svc`, `b_svc`,
`c_svc` starts them in order A, B, C and stops them in order C, B, A. -/
theorem stop_reverses_start_witness :
    (∀ a ∈ iteratedServices
        [⟨"a_svc", true, true, []⟩, ⟨"b_svc", true, true, []⟩, ⟨"c_svc", true, true, []⟩],
      a.onStartOk = true)
    ∧ ((startServices
          [⟨"a_svc", true, true, []⟩, ⟨"b_svc", true, true, []⟩, ⟨"c_svc", true, true, []⟩]).fst
        = [Action.serviceOnStart "a_svc", Action.serviceOnStart "b_svc",
            Action.serviceOnStart "c_svc"]
      ∧ stopServices
          [⟨"a_svc", true, true, []⟩, ⟨"b_svc", true, true, []⟩, ⟨"c_svc", true, true, []⟩]
        = [Action.serviceOnStop "c_svc", Action.serviceOnStop "b_svc",
            Action.serviceOnStop "a_svc"]) :=
  ⟨by decide,
   by
    have h := stop_reverses_start
      [⟨"a_svc", true, true, []⟩, ⟨"b_svc", true, true, []⟩, ⟨"c_svc", true, true, []⟩]
      (by decide)
    exact ⟨h.1.trans (by rfl), h.2.trans (by rfl)⟩⟩

/-- Counterexample for claim C7: with a well-formed token and the chat-id
key absent from the storage (`None` is not equal to `0` in Python, so the
settings check passes), the send is attempted and a successful external
send makes `send_telegram_message` return an `Ok`, not an error result. -/
theorem send_telegram_counterexample :
    (TgStorage.mk (some "a:b") none).telegram_chat_id = none
    ∧ (send_telegram_message ⟨some "a:b", none⟩ "hello" (MmResult.Ok [7])).fst
        = MmResult.Ok [7] := by
  decide

/-- Claim C7 (amended): `send_telegram_message` never raises; when the
settings check fails (in particular when the token is absent or the chat
id equals 0) it returns an error result without attempting the send; when
the check passes, a failing external send is written to the event log and
its error result returned, a successful one returned as is. -/
theorem send_telegram_message_result (st : TgStorage) (message : String)
    (res : MmResult (List Int)) :
    (has_telegram_settings st = false →
      send_telegram_message st message res
        = (MmResult.Err "telegram token or chat_id is not set", []))
    ∧ (∀ e, has_telegram_settings st = true → res = MmResult.Err e →
        send_telegram_message st message res
          = (MmResult.Err e, [Action.dlogWrite "send_telegram_message"]))
    ∧ (∀ v, has_telegram_settings st = true → res = MmResult.Ok v →
        send_telegram_message st message res = (MmResult.Ok v, []))
    ∧ (st.telegram_token = none → has_telegram_settings st = false)
    ∧ (st.telegram_chat_id = some 0 → has_telegram_settings st = false) := by
  obtain ⟨tok, cid⟩ := st
  refine ⟨?_, ?_, ?_, ?_, ?_⟩
  · intro h; simp [send_telegram_message, h]
  · intro e h he; subst he; simp [send_telegram_message, h]
  · intro v h hv; subst hv; simp [send_telegram_message, h]
  · intro h; subst h; simp [has_telegram_settings]
  · intro h; subst h
    cases tok with
    | none => simp [has_telegram_settings]
    | some t => simp [has_telegram_settings]

/-- Witness for claim C7: configured settings and a failing external send
— the failure is logged to the event log and returned. -/
theorem send_telegram_message_witness :
    has_telegram_settings ⟨some "a:b", some 5⟩ = true
    ∧ send_telegram_message ⟨some "a:b", some 5⟩ "m" (MmResult.Err "boom")
        = (MmResult.Err "boom", [Action.dlogWrite "send_telegram_message"]) :=
  ⟨by decide, (send_telegram_message_result _ _ _).2.1 "boom" (by decide) rfl⟩

/-- Claim C8: the TOML export serializes exactly the non-hidden fields —
every hidden key is absent from the exported document and every
non-hidden stored key is present in it. -/
theorem export_dconfig_nonhidden (st : DConfigSt) (k : String) :
    (k ∈ st.hidden → k ∉ docKeys (pydashOmit st.storage st.hidden))
    ∧ (∀ v, (k, v) ∈ st.storage → k ∉ st.hidden →
        k ∈ docKeys (pydashOmit st.storage st.hidden))
    ∧ export_dconfig_as_toml st = toml_dumps (pydashOmit st.storage st.hidden) := by
  refine ⟨?_, ?_, rfl⟩
  · intro hk hmem
    simp only [docKeys, pydashOmit, List.mem_map, List.mem_filter] at hmem
    obtain ⟨kv, ⟨_, hp⟩, hfst⟩ := hmem
    rw [hfst] at hp
    simp [List.elem_iff, hk] at hp
  · intro v hmem hnot
    simp only [docKeys, pydashOmit, List.mem_map, List.mem_filter]
    refine ⟨(k, v), ⟨hmem, ?_⟩, rfl⟩
    simp [List.elem_iff, hnot]

/-- Witness for claim C8: the hidden field `secret` is absent from the
exported document of a two-field storage. -/
theorem export_dconfig_witness :
    "secret" ∈ (DConfigSt.mk [("a", DVal.num 1), ("secret", DVal.str "x")]
        [("a", DVal.num 1), ("secret", DVal.str "x")]
        [("a", SemType.numeric), ("secret", SemType.string)] ["secret"]).hidden
    ∧ "secret" ∉ docKeys (pydashOmit
        [("a", DVal.num 1), ("secret", DVal.str "x")] ["secret"]) :=
  ⟨by decide, (export_dconfig_nonhidden ⟨[("a", DVal.num 1), ("secret", DVal.str "x")],
      [("a", DVal.num 1), ("secret", DVal.str "x")],
      [("a", SemType.numeric), ("secret", SemType.string)], ["secret"]⟩ "secret").1
    (by decide)⟩

/-- Claim C9: reading `Service.core` before injection fails with the
uninitialized-context error (`RuntimeError("Core not set for service")`
in the code); after `set_core(core)` the property returns exactly the
injected core; and during registry construction `set_core` is invoked
exactly once per service. -/
theorem service_core_injection (T : Type) (c : T) (s : ServiceObj T)
    (registry : List Attr) (a : Attr) :
    ((newService T).core = Except.error (PyErr.runtimeError "Core not set for service"))
    ∧ (s._core = none → s.core = Except.error (PyErr.runtimeError "Core not set for service"))
    ∧ ((s.set_core c).core = Except.ok c)
    ∧ (a ∈ iteratedServices registry →
        ((iteratedServices registry).map Attr.name).Nodup →
        (injectCoreIntoServices registry).count (Action.serviceSetCore a.name) = 1) := by
  refine ⟨rfl, ?_, rfl, ?_⟩
  · intro h; simp [ServiceObj.core, h]
  · intro hmem hnodup
    have hinj : Function.Injective Action.serviceSetCore := by
      intro x y h; cases h; rfl
    have : injectCoreIntoServices registry
        = ((iteratedServices registry).map Attr.name).map Action.serviceSetCore := by
      simp [injectCoreIntoServices, List.map_map]
    rw [this, List.count_map_of_injective _ _ hinj]
    exact List.count_eq_one_of_mem hnodup (List.mem_map_of_mem _ hmem)

/-- Witness for claim C9: in a one-service registry the injection trace
carries exactly one `set_core` call for that service. -/
theorem service_core_injection_witness :
    ((⟨"a_svc", true, true, []⟩ : Attr) ∈ iteratedServices [⟨"a_svc", true, true, []⟩]
    ∧ ((iteratedServices [⟨"a_svc", true, true, []⟩]).map Attr.name).Nodup)
    ∧ (injectCoreIntoServices [⟨"a_svc", true, true, []⟩]).count
        (Action.serviceSetCore "a_svc") = 1 :=
  ⟨⟨by decide, by decide⟩,
   (service_core_injection Nat 0 (newService Nat) [⟨"a_svc", true, true, []⟩]
      ⟨"a_svc", true, true, []⟩).2.2.2 (by decide) (by decide)⟩

/-- Claim C10: `Core.__new__` raises `TypeError` for every argument list,
while `Core.init` builds an instance through `super().__new__`, bypassing
`Core.__new__` — the only way to obtain a `Core`. -/
theorem coreNew_raises_typeError :
    (∀ (args : List String) (kwargs : List (String × String)),
      coreNew args kwargs
        = Except.error (PyErr.typeError "Use `Core.init()` instead of direct instantiation."))
    ∧ (∀ (debug : Bool) (registry : List Attr),
        coreInit debug registry
          = ({ debug := debug, sched := { tasks := [], running := false } },
             injectCoreIntoServices registry)) :=
  ⟨fun _ _ => rfl, fun _ _ => rfl⟩

end MmBase6
